import Mathlib

/-
Verification development for the snappy-device-agents provisioning core
(rpi3 device agent and the snappy_device_agents transfer helpers).

The Python source is shallowly embedded: pure data flow becomes Lean
functions, remote commands and boot probes become explicit outcome
oracles, and exceptions become an explicit error type threaded through
`Except`.  Each embedded definition keeps the name of the source
function it models.
-/

/-- Errors raised by the agent code: Python's bare KeyError / IndexError /
json.JSONDecodeError, plus the two typed failures from devices/__init__:
ProvisioningError and RecoveryError (both carry a message). -/
inductive AgentError
  | keyError
  | indexError
  | jsonError
  | provisioningError (msg : String)
  | recoveryError (msg : String)
deriving DecidableEq

/-! ### Chunked file reading

Both `serve_file` (16 MiB chunks) and `compress_file` (4096-byte chunks)
read a file with a `while True: data = f.read(n); if not data: break`
loop.  `readChunksAux` models that loop; the fuel argument is bounded by
the file length, so the recursion is structural and computable. -/

def readChunksAux (csize : Nat) : Nat → List Nat → List (List Nat)
  | 0, _ => []
  | _ + 1, [] => []
  | fuel + 1, d :: rest =>
      (d :: rest).take csize :: readChunksAux csize fuel ((d :: rest).drop csize)

/-- Split `data` into successive chunks of at most `csize` bytes, exactly
as the `f.read(csize)` loop yields them. -/
def readChunks (csize : Nat) (data : List Nat) : List (List Nat) :=
  readChunksAux csize data.length data

/-! ### serve_file (snappy_device_agents/__init__.py, lines 177-199)

The socket interaction is modelled as the trace of externally visible
events the function performs, in source order: bind to ("0.0.0.0", 0)
(the OS picks `boundPort`), report the bound port on the queue,
listen(1), accept exactly once, send the file in 16 MiB chunks until
EOF, close the client socket, close the listening socket. -/

inductive ServerEvent
  | bindEvt (host : String) (requestedPort : Nat) (boundPort : Nat)
  | reportPort (port : Nat)
  | listenEvt (backlog : Nat)
  | acceptEvt
  | sendEvt (data : List Nat)
  | closeClient
  | closeServer
deriving DecidableEq

/-- The chunk size used by serve_file: 16 MiB. -/
def SERVE_CHUNK : Nat := 16 * 1024 * 1024

def serve_file (boundPort : Nat) (fileData : List Nat) : List ServerEvent :=
  ServerEvent.bindEvt "0.0.0.0" 0 boundPort ::
  ServerEvent.reportPort boundPort ::
  ServerEvent.listenEvt 1 ::
  ServerEvent.acceptEvt ::
  ((readChunks SERVE_CHUNK fileData).map ServerEvent.sendEvt ++
    [ServerEvent.closeClient, ServerEvent.closeServer])

/-- The payload chunks a trace sends to the connected client. -/
def sentChunks (trace : List ServerEvent) : List (List Nat) :=
  trace.filterMap fun e =>
    match e with
    | ServerEvent.sendEvt d => some d
    | _ => none

/-! ### compress_file (lines 202-225) and the writer-side decompression

`compress_file` reads the image in 4096-byte chunks and writes them
through `gzip.open(filename + ".gz", "wb")`: the result is a gzip
container of the source bytes.  The rpi3 writer command
(`nc.traditional ip port | xzcat | sudo dd of=dev bs=16M`,
rpi3.py line 323) pipes the received stream through `xzcat`, the
xz-format streaming decompressor.  A compressed stream is modelled as
its container format together with the bytes it decompresses to; a
decompressor for one format fails on a container of another format. -/

inductive CompressionFormat
  | gzipFmt
  | xzFmt
deriving DecidableEq

structure CompressedStream where
  format : CompressionFormat
  payload : List Nat
deriving DecidableEq

/-- compress_file: gzip-compress the source bytes (read in 4096-byte chunks). -/
def compress_file (data : List Nat) : CompressedStream :=
  CompressedStream.mk CompressionFormat.gzipFmt ((readChunks 4096 data).flatten)

/-- The stream as received by the writer: serve_file transmits the
compressed file's bytes over the single accepted connection, preserving
the container format. -/
def transferredStream (serverPort : Nat) (c : CompressedStream) : CompressedStream :=
  CompressedStream.mk c.format ((sentChunks (serve_file serverPort c.payload)).flatten)

/-- xzcat: streaming decompression that understands only the xz container
format; on any other container it fails (dd then writes no image data). -/
def xzcat (c : CompressedStream) : Option (List Nat) :=
  if c.format = CompressionFormat.xzFmt then some c.payload else none

/-- End-to-end contents landing on the block device: compress on the
server host, stream over the ephemeral server, decompress with xzcat on
the writer side.  `none` means the decompression step failed. -/
def flash_pipeline (serverPort : Nat) (src : List Nat) : Option (List Nat) :=
  xzcat (transferredStream serverPort (compress_file src))

/-! ### get_image_type (rpi3.py, lines 87-113)

The function runs `lsblk -J dev`, parses the output with `json.loads`,
indexes `parsed["blockdevices"][0]["children"]`, keeps the truthy
`name` fields, and then mounts each named partition in turn, listing
`/mnt` and testing the marker paths of IMAGE_PATH_IDS in insertion
order.  The lsblk result is modelled as `Option (List LsblkDev)`
(`none` = `json.loads` raised, i.e. unparseable output); a missing
`children` key is `children = none`.  The per-partition probe oracle
returns `some dirs` when mount, `ls /mnt` and the scope-closing unmount
all succeed (`dirs` = the whitespace-split listing) and `none` when any
of them raises, in which case the `except Exception: continue` moves on
to the next partition.  (An unmount failure after a successful marker
match would also be caught and skipped; no claim below touches that
path, and in a zero-marker run the no-marker and the failed-unmount
outcome lead to the same `continue`.) -/

structure LsblkChild where
  name : Option String
deriving DecidableEq

structure LsblkDev where
  children : Option (List LsblkChild)
deriving DecidableEq

/-- Marker path table, in Python dict insertion order (line 37). -/
def IMAGE_PATH_IDS : List (String × String) :=
  [("etc", "ubuntu"), ("system-data", "core"), ("snaps", "core20")]

/-- First marker of IMAGE_PATH_IDS present in the directory listing. -/
def matchImageType (dirs : List String) : Option String :=
  (IMAGE_PATH_IDS.find? fun pr => dirs.contains pr.1).map fun pr => pr.2

/-- The truthy partition names: entries whose `name` is present and
non-empty (Python keeps `x.get("name")` only when it is truthy). -/
def extractNames (entries : List LsblkChild) : List String :=
  entries.filterMap fun e =>
    match e.name with
    | some n => if n = "" then none else some n
    | none => none

/-- The `for dev in dev_list` loop.  `lastDev` is the current value of
the shadowed `dev` variable (initially the configured test_device). -/
def imageTypeLoop (probe : String → Option (List String)) :
    List String → String → String × String
  | [], lastDev => ("unknown", lastDev)
  | d :: rest, _ =>
    match probe d with
    | none => imageTypeLoop probe rest d
    | some dirs =>
      match matchImageType dirs with
      | some t => (t, d)
      | none => imageTypeLoop probe rest d

def get_image_type (test_device : String) (lsblkOut : Option (List LsblkDev))
    (probe : String → Option (List String)) : Except AgentError (String × String) :=
  match lsblkOut with
  | none => Except.error AgentError.jsonError
  | some [] => Except.error AgentError.indexError
  | some (bd :: _) =>
    match bd.children with
    | none => Except.error AgentError.keyError
    | some entries =>
      Except.ok (imageTypeLoop probe (extractNames entries) test_device)

/-! ### flash_test_image (rpi3.py, lines 300-346)

The four remote commands, in order: (a) `sudo umount dev*` (30 s,
`except KeyError: raise RecoveryError` / `except Exception: pass`),
(b) `nc.traditional ip port | xzcat | sudo dd of=dev bs=16M` (1800 s,
any failure raises ProvisioningError), (c) `sync` (failure logged plus
a 30 s sleep, never raised), (d) `sudo hdparm -z dev` (30 s, failure
raises ProvisioningError).  The KeyError in (a) comes from the
`self.config["test_device"]` lookup while the command string is being
built, before any ssh invocation; `test_device = none` models the
missing key.  `run` is the outcome oracle for the remote commands
(`true` = exit status 0); the returned list is the trace of commands
whose execution was attempted, in order. -/

inductive RemoteCmd
  | umountAll (dev : String)
  | flashWrite (ip : String) (port : Nat) (dev : String)
  | syncCmd
  | hdparmRescan (dev : String)
  | wipefs (dev : String)
deriving DecidableEq

def flash_test_image (test_device : Option String) (server_ip : String)
    (server_port : Nat) (run : RemoteCmd → Bool) :
    Except AgentError Unit × List RemoteCmd :=
  match test_device with
  | none => (Except.error (AgentError.recoveryError "Device config missing test_device"), [])
  | some dev =>
    let c1 := RemoteCmd.umountAll dev
    let _ := run c1
    let c2 := RemoteCmd.flashWrite server_ip server_port dev
    if run c2 then
      let c3 := RemoteCmd.syncCmd
      let _ := run c3
      let c4 := RemoteCmd.hdparmRescan dev
      if run c4 then (Except.ok (), [c1, c2, c3, c4])
      else
        (Except.error (AgentError.provisioningError "Unable to run hdparm to rescan partitions"),
          [c1, c2, c3, c4])
    else
      (Except.error (AgentError.provisioningError "timeout reached while flashing image!"),
        [c1, c2])

/-! ### wipe_test_device (rpi3.py, lines 411-425)

The whole body sits in `try: ... except Exception: pass`: the
`self.config["test_device"]` lookup (KeyError when absent) and the
`sudo wipefs -af dev` command failure are both swallowed, so the
function never raises; `wipeCmdOk` (the command outcome) cannot affect
the result.  The trace records whether the wipefs command was
attempted. -/

def wipe_test_device (test_device : Option String) (wipeCmdOk : Bool) :
    Except AgentError Unit × List RemoteCmd :=
  match test_device with
  | none => (Except.ok (), [])
  | some dev =>
    let _ := wipeCmdOk
    (Except.ok (), [RemoteCmd.wipefs dev])

/-! ### setboot (rpi3.py, lines 115-137)

`mode == "master"` selects config["select_master_script"],
`mode == "test"` selects config["select_test_script"], anything else
hits `raise KeyError` before either config key is read.  Each script
command runs through subprocess.check_call with a 60 s timeout; the
first failure raises ProvisioningError("timeout reaching control
host!").  A missing config key raises the dictionary's own KeyError.
`cmdOk` is the command outcome oracle; the returned list is the trace
of commands attempted. -/

def runSetbootScript (cmdOk : String → Bool) :
    List String → Except AgentError Unit × List String
  | [] => (Except.ok (), [])
  | c :: rest =>
    if cmdOk c then
      let r := runSetbootScript cmdOk rest
      (r.1, c :: r.2)
    else (Except.error (AgentError.provisioningError "timeout reaching control host!"), [c])

def setboot (mode : String) (select_master_script select_test_script : Option (List String))
    (cmdOk : String → Bool) : Except AgentError Unit × List String :=
  if mode = "master" then
    match select_master_script with
    | none => (Except.error AgentError.keyError, [])
    | some script => runSetbootScript cmdOk script
  else if mode = "test" then
    match select_test_script with
    | none => (Except.error AgentError.keyError, [])
    | some script => runSetbootScript cmdOk script
  else (Except.error AgentError.keyError, [])

/-! ### ensure_master_image (rpi3.py, lines 252-298)

Control flow is driven entirely by the boot probes
`is_test_image_booted` / `is_master_image_booted`, both of which
collapse every failure to a boolean.  The probes are modelled by a
single outcome sequence `σ : Nat → Bool` consumed one value per probe
call, with `k` the index of the next probe.  `setboot("master")` and
`hardreset()` are recorded as actions; a failing setboot/hardreset
raises immediately (ProvisioningError / RecoveryError) and thus
terminates, so the interesting, probe-driven control flow is the one
with the actions succeeding, matching the claim's quantification over
probe outcomes only.

Both polling loops (`while time.time() - started < 300: time.sleep(10)`)
run a bounded number of iterations, modelled as `pollIters = 30`
(300 s budget / 10 s interval).

The source line 293 `return self.ensure_master_image()` is an unbounded
recursive self-invocation; `fuel` bounds the modelled recursion depth,
and a `none` result means the computation was still recursing when
`fuel` ran out — `(∀ fuel, result = none)` is non-termination.
Result: `some ok` = normal return, `some recoveryError` = RecoveryError
raised; alongside the final probe index and the list of performed
actions. -/

inductive EmiResult
  | ok
  | recoveryError
deriving DecidableEq

inductive RecoveryAction
  | setbootMaster
  | hardresetCmd
deriving DecidableEq

def pollIters : Nat := 30

/-- The master-image polling loop in the test-booted branch
(lines 269-274): probe `is_master_image_booted` once per iteration,
return on the first success. -/
def pollMasterLoop (σ : Nat → Bool) : Nat → Nat → Bool × Nat
  | 0, k => (false, k)
  | i + 1, k => if σ k then (true, k + 1) else pollMasterLoop σ i (k + 1)

/-- The unknown-state polling loop (lines 286-293): per iteration probe
master, return on success; else probe test and re-invoke
ensure_master_image (passed in as `recur`) on success; else continue.
Exhausting the loop raises RecoveryError (line 295). -/
def unknownStateLoop (σ : Nat → Bool)
    (recur : Nat → Option EmiResult × Nat × List RecoveryAction) :
    Nat → Nat → Option EmiResult × Nat × List RecoveryAction
  | 0, k => (some EmiResult.recoveryError, k, [])
  | i + 1, k =>
    if σ k then (some EmiResult.ok, k + 1, [])
    else if σ (k + 1) then recur (k + 2)
    else unknownStateLoop σ recur i (k + 2)

def ensure_master_image (σ : Nat → Bool) (fuel : Nat) :
    Nat → Option EmiResult × Nat × List RecoveryAction :=
  match fuel with
  | 0 => fun k => (none, k, [])
  | fuel' + 1 => fun k =>
    if σ k then
      match pollMasterLoop σ pollIters (k + 1) with
      | (true, k2) =>
        (some EmiResult.ok, k2, [RecoveryAction.setbootMaster, RecoveryAction.hardresetCmd])
      | (false, k2) =>
        (some EmiResult.recoveryError, k2,
          [RecoveryAction.setbootMaster, RecoveryAction.hardresetCmd])
    else if σ (k + 1) then
      (some EmiResult.ok, k + 2, [])
    else
      let r := unknownStateLoop σ (ensure_master_image σ fuel') pollIters (k + 2)
      (r.1, r.2.1, RecoveryAction.hardresetCmd :: r.2.2)

/-- The flapping probe sequence: in every recursion round the initial
test probe and master probe answer false, the unknown-state loop's
first master probe answers false and its test probe answers true, so
line 293 re-invokes ensure_master_image, forever. -/
def advSeq (k : Nat) : Bool := k % 4 == 3

/-! ### provision (rpi3.py, lines 437-478)

The stages inside the `try` block, in order: flash_test_image,
`file_server.terminate()`, get_image_type, remote_mount + create_user,
run_post_provision_script, ensure_test_image.  The stage bodies are
abstracted into outcome parameters (`some e` = the stage raised the
exception `e`, `none` = it returned); the exception type is an
arbitrary `ε`, so "re-raises exactly the original exception" is
expressible.  `except Exception:` runs wipe_test_device (which never
raises, see above) and then bare `raise` re-raises the original.
`file_server.terminate()` appears only after a successful
flash_test_image, so the returned flag `serverTerminated` is false
whenever the flash stage raised.  Result components: the run's result,
the recovery-path command trace, and `serverTerminated`. -/

def provision {ε : Type} (flashR inspectR seedR postR bootR : Option ε)
    (test_device : Option String) (wipeCmdOk : Bool) :
    Except ε Unit × List RemoteCmd × Bool :=
  match flashR with
  | some e => (Except.error e, (wipe_test_device test_device wipeCmdOk).2, false)
  | none =>
    match inspectR with
    | some e => (Except.error e, (wipe_test_device test_device wipeCmdOk).2, true)
    | none =>
      match seedR with
      | some e => (Except.error e, (wipe_test_device test_device wipeCmdOk).2, true)
      | none =>
        match postR with
        | some e => (Except.error e, (wipe_test_device test_device wipeCmdOk).2, true)
        | none =>
          match bootR with
          | some e => (Except.error e, (wipe_test_device test_device wipeCmdOk).2, true)
          | none => (Except.ok (), [], true)

/-- The first exception raised by the stage sequence, if any. -/
def firstStageError {ε : Type} (flashR inspectR seedR postR bootR : Option ε) : Option ε :=
  match flashR with
  | some e => some e
  | none =>
    match inspectR with
    | some e => some e
    | none =>
      match seedR with
      | some e => some e
      | none =>
        match postR with
        | some e => some e
        | none => bootR

/-! ## Helper lemmas -/

theorem readChunksAux_flatten (csize : Nat) (hc : csize ≠ 0) :
    ∀ (fuel : Nat) (data : List Nat), data.length ≤ fuel →
      (readChunksAux csize fuel data).flatten = data := by
  intro fuel
  induction fuel with
  | zero =>
    intro data h
    have hd : data = [] := List.eq_nil_of_length_eq_zero (Nat.le_zero.mp h)
    subst hd
    simp [readChunksAux]
  | succ f ih =>
    intro data h
    match data with
    | [] => simp [readChunksAux]
    | d :: rest =>
      have hlen : ((d :: rest).drop csize).length ≤ f := by
        simp only [List.length_drop, List.length_cons] at *
        omega
      simp only [readChunksAux, List.flatten_cons, ih _ hlen]
      exact List.take_append_drop csize (d :: rest)

theorem readChunks_flatten (csize : Nat) (hc : csize ≠ 0) (data : List Nat) :
    (readChunks csize data).flatten = data :=
  readChunksAux_flatten csize hc data.length data (Nat.le_refl _)

theorem readChunksAux_mem (csize : Nat) (hc : csize ≠ 0) :
    ∀ (fuel : Nat) (data : List Nat) (c : List Nat),
      c ∈ readChunksAux csize fuel data → c.length ≤ csize ∧ c ≠ [] := by
  intro fuel
  induction fuel with
  | zero => intro data c h; simp [readChunksAux] at h
  | succ f ih =>
    intro data c h
    match data with
    | [] => simp [readChunksAux] at h
    | d :: rest =>
      simp only [readChunksAux, List.mem_cons] at h
      rcases h with h | h
      · subst h
        constructor
        · simp [List.length_take]
        · match csize, hc with
          | n + 1, _ => simp [List.take]
      · exact ih _ c h

theorem getLastD_mem {α : Type} : ∀ (l : List α) (d : α), l ≠ [] → l.getLastD d ∈ l := by
  intro l
  induction l with
  | nil => intro d h; exact absurd rfl h
  | cons a rest ih =>
    intro d _
    match rest, ih with
    | [], _ => simp
    | b :: rest2, ih =>
      have := ih a (by simp)
      simp only [List.getLastD_cons] at this ⊢
      exact List.mem_cons_of_mem a this

theorem imageTypeLoop_unknown (probe : String → Option (List String))
    (hnm : ∀ d dirs, probe d = some dirs → matchImageType dirs = none) :
    ∀ (names : List String) (lastDev : String),
      imageTypeLoop probe names lastDev = ("unknown", names.getLastD lastDev) := by
  intro names
  induction names with
  | nil => intro lastDev; simp [imageTypeLoop]
  | cons d rest ih =>
    intro lastDev
    rw [List.getLastD_cons]
    match hp : probe d with
    | none =>
      simp only [imageTypeLoop, hp]
      exact ih d
    | some dirs =>
      simp only [imageTypeLoop, hp, hnm d dirs hp]
      exact ih d

theorem sentChunks_map_send (cs : List (List Nat)) :
    sentChunks (cs.map ServerEvent.sendEvt) = cs := by
  induction cs with
  | nil => rfl
  | cons c rest ih => simp [sentChunks, List.filterMap_cons] at ih ⊢; exact ih

theorem sentChunks_serve_file (port : Nat) (data : List Nat) :
    sentChunks (serve_file port data) = readChunks SERVE_CHUNK data := by
  have h := sentChunks_map_send (readChunks SERVE_CHUNK data)
  simp only [sentChunks] at h
  simp only [serve_file, sentChunks, List.filterMap_cons, List.filterMap_append,
    List.filterMap_nil, List.append_nil]
  exact h

theorem unknownStateLoop_recurse (σ : Nat → Bool)
    (recur : Nat → Option EmiResult × Nat × List RecoveryAction) (i k : Nat)
    (h1 : σ k = false) (h2 : σ (k + 1) = true) :
    unknownStateLoop σ recur (i + 1) k = recur (k + 2) := by
  simp [unknownStateLoop, h1, h2]

theorem ensure_master_image_diverges_aux :
    ∀ (fuel j : Nat), (ensure_master_image advSeq fuel (4 * j)).1 = none := by
  intro fuel
  induction fuel with
  | zero => intro j; simp [ensure_master_image]
  | succ f ih =>
    intro j
    have h0 : advSeq (4 * j) = false := by
      simp only [advSeq, Nat.mul_mod_right]
      rfl
    have e1 : (4 * j + 1) % 4 = 1 := by omega
    have h1 : advSeq (4 * j + 1) = false := by
      simp only [advSeq, e1]
      rfl
    have e2 : (4 * j + 2) % 4 = 2 := by omega
    have h2 : advSeq (4 * j + 2) = false := by
      simp only [advSeq, e2]
      rfl
    have e3 : (4 * j + 2 + 1) % 4 = 3 := by omega
    have h3 : advSeq (4 * j + 2 + 1) = true := by
      simp only [advSeq, e3]
      rfl
    have hstep := unknownStateLoop_recurse advSeq
      (ensure_master_image advSeq f) 29 (4 * j + 2) h2 h3
    have hnext : 4 * j + 2 + 2 = 4 * (j + 1) := by omega
    simp only [ensure_master_image, h0, h1, Bool.false_eq_true, if_false, pollIters]
    rw [show (30 : Nat) = 29 + 1 from rfl, hstep, hnext]
    simp only [ih (j + 1)]

theorem unknownStateLoop_total (σ : Nat → Bool) (N f : Nat)
    (ht : ∀ j, σ j = true → j < N)
    (hr : ∀ k2 g, f = g + 1 → N ≤ k2 + 4 * g →
      (ensure_master_image σ (g + 1) k2).1 ≠ none) :
    ∀ (i k : Nat), N + 2 ≤ k + 4 * f →
      (unknownStateLoop σ (ensure_master_image σ f) i k).1 ≠ none := by
  intro i
  induction i with
  | zero => intro k hk; simp [unknownStateLoop]
  | succ i ih =>
    intro k hk
    by_cases hm : σ k = true
    · simp [unknownStateLoop, hm]
    · have hm' : σ k = false := by
        cases hv : σ k
        · rfl
        · exact absurd hv hm
      by_cases htst : σ (k + 1) = true
      · have hjN : k + 1 < N := ht (k + 1) htst
        match f, hr, hk with
        | 0, _, hk => exact absurd hjN (by omega)
        | g + 1, hr, hk =>
          rw [unknownStateLoop_recurse σ _ i k hm' htst]
          exact hr (k + 2) g rfl (by omega)
      · have htst' : σ (k + 1) = false := by
          cases hv : σ (k + 1)
          · rfl
          · exact absurd hv htst
        simp only [unknownStateLoop, hm', htst', Bool.false_eq_true, if_false]
        exact ih (k + 2) (by omega)

theorem ensure_master_image_total_aux (σ : Nat → Bool) (N : Nat)
    (ht : ∀ j, σ j = true → j < N) :
    ∀ (f k : Nat), N ≤ k + 4 * f → (ensure_master_image σ (f + 1) k).1 ≠ none := by
  intro f
  induction f with
  | zero =>
    intro k hk
    by_cases h0 : σ k = true
    · match hpm : pollMasterLoop σ pollIters (k + 1) with
      | (true, k2) => simp [ensure_master_image, h0, hpm]
      | (false, k2) => simp [ensure_master_image, h0, hpm]
    · have h0' : σ k = false := by
        cases hv : σ k
        · rfl
        · exact absurd hv h0
      by_cases h1 : σ (k + 1) = true
      · simp [ensure_master_image, h0', h1]
      · have h1' : σ (k + 1) = false := by
          cases hv : σ (k + 1)
          · rfl
          · exact absurd hv h1
        have hloop := unknownStateLoop_total σ N 0 ht
          (fun k2 g hg => absurd hg (by omega)) pollIters (k + 2) (by omega)
        simp only [ensure_master_image, h0', h1', Bool.false_eq_true, if_false]
        exact hloop
  | succ g ih =>
    intro k hk
    by_cases h0 : σ k = true
    · match hpm : pollMasterLoop σ pollIters (k + 1) with
      | (true, k2) => simp [ensure_master_image, h0, hpm]
      | (false, k2) => simp [ensure_master_image, h0, hpm]
    · have h0' : σ k = false := by
        cases hv : σ k
        · rfl
        · exact absurd hv h0
      by_cases h1 : σ (k + 1) = true
      · simp [ensure_master_image, h0', h1]
      · have h1' : σ (k + 1) = false := by
          cases hv : σ (k + 1)
          · rfl
          · exact absurd hv h1
        have hloop := unknownStateLoop_total σ N (g + 1) ht
          (fun k2 g2 hg2 hk2 => by
            have : g2 = g := by omega
            subst this
            exact ih k2 hk2) pollIters (k + 2) (by omega)
        simp only [ensure_master_image, h0', h1', Bool.false_eq_true, if_false]
        exact hloop

/-! ## Claim theorems -/

/-- C1: the end-to-end transfer pipeline never reproduces the source
image: compress_file produces a gzip container, while the writer-side
command decompresses with xzcat, which only accepts the xz format.  The
decompression step therefore fails for every source image (result
`none`), and in particular the concrete 3-byte image does not land
byte-for-byte on the device; the compression format produced by the
server side is not the format the writer expects. -/
theorem flash_roundtrip_format_mismatch :
    (∀ (serverPort : Nat) (src : List Nat), flash_pipeline serverPort src = none)
  ∧ flash_pipeline 8080 [0, 1, 2] ≠ some [0, 1, 2]
  ∧ (compress_file [0, 1, 2]).format ≠ CompressionFormat.xzFmt := by
  have hall : ∀ (serverPort : Nat) (src : List Nat), flash_pipeline serverPort src = none := by
    intro p s
    simp [flash_pipeline, xzcat, transferredStream, compress_file]
  refine ⟨hall, ?_, by decide⟩
  rw [hall]
  simp

/-- C8: serve_file binds to an OS-assigned port (requested port 0) on
all interfaces, reports the bound port on the queue before listening,
accepting or sending anything, accepts exactly one connection, streams
the file in chunks of at most 16 MiB (each non-empty) whose
concatenation is exactly the file's bytes, and finally closes the
client socket and then the listening socket. -/
theorem serve_file_spec (port : Nat) (data : List Nat) :
    (serve_file port data).count ServerEvent.acceptEvt = 1
  ∧ (sentChunks (serve_file port data)).flatten = data
  ∧ (∀ c ∈ sentChunks (serve_file port data), c.length ≤ SERVE_CHUNK ∧ c ≠ [])
  ∧ (serve_file port data).take 4
      = [ServerEvent.bindEvt "0.0.0.0" 0 port, ServerEvent.reportPort port,
         ServerEvent.listenEvt 1, ServerEvent.acceptEvt]
  ∧ (∃ pre, serve_file port data
      = pre ++ [ServerEvent.closeClient, ServerEvent.closeServer]) := by
  have hchunk : SERVE_CHUNK ≠ 0 := by decide
  refine ⟨?_, ?_, ?_, rfl, ?_⟩
  · have hm : (List.map ServerEvent.sendEvt (readChunks SERVE_CHUNK data)).count
        ServerEvent.acceptEvt = 0 :=
      List.count_eq_zero.mpr (by simp)
    simp [serve_file, List.count_cons, List.count_append, hm]
  · rw [sentChunks_serve_file]
    exact readChunks_flatten SERVE_CHUNK hchunk data
  · intro c hc
    rw [sentChunks_serve_file] at hc
    simp only [readChunks] at hc
    exact readChunksAux_mem SERVE_CHUNK hchunk data.length data c hc
  · exact ⟨ServerEvent.bindEvt "0.0.0.0" 0 port :: ServerEvent.reportPort port ::
      ServerEvent.listenEvt 1 :: ServerEvent.acceptEvt ::
      (readChunks SERVE_CHUNK data).map ServerEvent.sendEvt, by simp [serve_file]⟩

/-- C8 witness: the specification instantiated on a concrete port and a
concrete 3-byte file. -/
theorem serve_file_spec_witness :
    (serve_file 7070 [1, 2, 3]).count ServerEvent.acceptEvt = 1
  ∧ (sentChunks (serve_file 7070 [1, 2, 3])).flatten = [1, 2, 3] :=
  ⟨(serve_file_spec 7070 [1, 2, 3]).1, (serve_file_spec 7070 [1, 2, 3]).2.1⟩

/-- C3 counterexample: on a target device whose lsblk JSON reports no
`children` key (a device with no child partitions), get_image_type
raises a KeyError instead of returning ("unknown", partition); the
claim asserts it never raises in exactly this case. -/
theorem get_image_type_raises_without_children :
    get_image_type "mmcblk0" (some [LsblkDev.mk none]) (fun _ => none)
      = Except.error AgentError.keyError := rfl

/-- C3 (amended): when the lsblk output parses and the first block
device carries a children list with at least one truthy name, and no
marker path matches on any partition — including when every mount
fails — get_image_type returns `unknown` paired with the
last-enumerated child partition name and raises nothing. -/
theorem get_image_type_unknown_total (td : String) (children0 : List LsblkChild)
    (rest : List LsblkDev) (probe : String → Option (List String))
    (hnm : ∀ d dirs, probe d = some dirs → matchImageType dirs = none)
    (hne : extractNames children0 ≠ []) :
    get_image_type td (some (LsblkDev.mk (some children0) :: rest)) probe
      = Except.ok ("unknown", (extractNames children0).getLastD td)
  ∧ (extractNames children0).getLastD td ∈ extractNames children0 := by
  constructor
  · simp only [get_image_type]
    rw [imageTypeLoop_unknown probe hnm]
  · exact getLastD_mem _ td hne

/-- C3 witness: two named partitions, both unmountable; the result is
("unknown", "mmcblk0p2"), the last-enumerated partition. -/
theorem get_image_type_unknown_witness :
    get_image_type "mmcblk0"
      (some [LsblkDev.mk (some [LsblkChild.mk (some "mmcblk0p1"),
        LsblkChild.mk (some "mmcblk0p2")])]) (fun _ => none)
      = Except.ok ("unknown", "mmcblk0p2") :=
  (get_image_type_unknown_total "mmcblk0"
    [LsblkChild.mk (some "mmcblk0p1"), LsblkChild.mk (some "mmcblk0p2")] []
    (fun _ => none) (fun _ dirs h => Option.noConfusion h) (by decide)).1.trans rfl

/-- C4: in flash_test_image (with test_device configured), a failure of
the long network-read/decompress/write command always raises
ProvisioningError; a failure of the partition rescan after a successful
write always raises ProvisioningError; and the result never depends on
the outcomes of the pre-flash unmount or of the sync — two oracles
agreeing on the write and rescan commands yield the same result no
matter what they answer for unmount and sync. -/
theorem flash_test_image_error_policy (dev server_ip : String) (server_port : Nat)
    (run run2 : RemoteCmd → Bool) :
    (run (RemoteCmd.flashWrite server_ip server_port dev) = false →
      (flash_test_image (some dev) server_ip server_port run).1
        = Except.error (AgentError.provisioningError "timeout reached while flashing image!"))
  ∧ (run (RemoteCmd.flashWrite server_ip server_port dev) = true →
      run (RemoteCmd.hdparmRescan dev) = false →
      (flash_test_image (some dev) server_ip server_port run).1
        = Except.error (AgentError.provisioningError "Unable to run hdparm to rescan partitions"))
  ∧ (run (RemoteCmd.flashWrite server_ip server_port dev)
        = run2 (RemoteCmd.flashWrite server_ip server_port dev) →
      run (RemoteCmd.hdparmRescan dev) = run2 (RemoteCmd.hdparmRescan dev) →
      (flash_test_image (some dev) server_ip server_port run).1
        = (flash_test_image (some dev) server_ip server_port run2).1) := by
  refine ⟨fun h => ?_, fun h1 h2 => ?_, fun h1 h2 => ?_⟩
  · simp [flash_test_image, h]
  · simp [flash_test_image, h1, h2]
  · have h1' : run2 (RemoteCmd.flashWrite server_ip server_port dev)
        = run (RemoteCmd.flashWrite server_ip server_port dev) := h1.symm
    have h2' : run2 (RemoteCmd.hdparmRescan dev)
        = run (RemoteCmd.hdparmRescan dev) := h2.symm
    cases hw : run (RemoteCmd.flashWrite server_ip server_port dev) <;>
      cases hrc : run (RemoteCmd.hdparmRescan dev) <;>
        simp [flash_test_image, hw, hrc, h1', h2']

/-- C4 witness: an oracle failing exactly the write command yields the
flashing ProvisioningError. -/
theorem flash_test_image_error_policy_witness :
    (flash_test_image (some "sda") "10.0.0.1" 4321
      (fun c => !(c == RemoteCmd.flashWrite "10.0.0.1" 4321 "sda"))).1
      = Except.error (AgentError.provisioningError "timeout reached while flashing image!") :=
  (flash_test_image_error_policy "sda" "10.0.0.1" 4321
    (fun c => !(c == RemoteCmd.flashWrite "10.0.0.1" 4321 "sda"))
    (fun c => !(c == RemoteCmd.flashWrite "10.0.0.1" 4321 "sda"))).1 (by decide)

/-- C7: with test_device missing from the configuration,
flash_test_image raises RecoveryError and the trace of attempted remote
commands is empty — no unmount, write, sync or rescan is ever run,
whatever the command oracle would have answered. -/
theorem flash_test_image_missing_test_device (server_ip : String) (server_port : Nat)
    (run : RemoteCmd → Bool) :
    flash_test_image none server_ip server_port run
      = (Except.error (AgentError.recoveryError "Device config missing test_device"), []) := rfl

/-- C9: for any mode other than "master" and "test", setboot raises a
bare KeyError — not ProvisioningError — runs no command, and its result
does not depend on the configured scripts (both script configurations
are arbitrary and never looked up). -/
theorem setboot_rejects_unknown_mode (mode : String)
    (select_master_script select_test_script : Option (List String))
    (cmdOk : String → Bool) (h1 : mode ≠ "master") (h2 : mode ≠ "test") :
    setboot mode select_master_script select_test_script cmdOk
      = (Except.error AgentError.keyError, []) := by
  simp [setboot, h1, h2]

/-- C9 witness: mode "maintainer" with both scripts configured and all
commands succeeding still yields the bare KeyError and an empty trace. -/
theorem setboot_rejects_unknown_mode_witness :
    setboot "maintainer" (some ["snappy-select master"]) (some ["snappy-select test"])
      (fun _ => true) = (Except.error AgentError.keyError, []) :=
  setboot_rejects_unknown_mode "maintainer" (some ["snappy-select master"])
    (some ["snappy-select test"]) (fun _ => true) (by decide) (by decide)

/-- C5: whenever any provisioning stage (flashing, inspecting, seeding,
post-provision, boot verification) raises an exception, provision runs
the best-effort wipe of the target device (the wipefs command is
attempted) and re-raises exactly the first raised exception, regardless
of whether the wipe command itself succeeds. -/
theorem provision_reraises_after_wipe {ε : Type} (flashR inspectR seedR postR bootR : Option ε)
    (e : ε) (dev : String) (wipeCmdOk : Bool)
    (h : firstStageError flashR inspectR seedR postR bootR = some e) :
    (provision flashR inspectR seedR postR bootR (some dev) wipeCmdOk).1 = Except.error e
  ∧ (provision flashR inspectR seedR postR bootR (some dev) wipeCmdOk).2.1
      = [RemoteCmd.wipefs dev] := by
  cases flashR <;> cases inspectR <;> cases seedR <;> cases postR <;> cases bootR <;>
    simp_all [provision, firstStageError, wipe_test_device]

/-- C5 witness: a failing flash stage is re-raised unchanged after the
wipe is attempted. -/
theorem provision_reraises_witness :
    (provision (some "boom") none none none none (some "sda") true).1 = Except.error "boom"
  ∧ (provision (some "boom") none none none none (some "sda") true).2.1
      = [RemoteCmd.wipefs "sda"] :=
  provision_reraises_after_wipe (some "boom") none none none none "boom" "sda" true rfl

/-- C6: when the flash stage fails, provision wipes and re-raises but
never calls file_server.terminate(): the serverTerminated flag of the
run is false, i.e. the ephemeral image server is left running — the
teardown the claim requires does not happen on the failure path. -/
theorem provision_flash_failure_leaves_server :
    provision (some "flash timeout") none none none none (some "mmcblk0") true
      = (Except.error "flash timeout", [RemoteCmd.wipefs "mmcblk0"], false) := rfl

/-- C10: if the first test-image probe answers false and the first
master-image probe answers true, ensure_master_image returns
successfully at once, with an empty action list: neither setboot nor
hardreset is invoked, for every probe tail and recursion budget. -/
theorem ensure_master_already_booted (σ : Nat → Bool) (fuel k : Nat)
    (h1 : σ k = false) (h2 : σ (k + 1) = true) :
    ensure_master_image σ (fuel + 1) k = (some EmiResult.ok, k + 2, []) := by
  simp [ensure_master_image, h1, h2]

/-- C10 witness: the probe sequence answering false then true. -/
theorem ensure_master_already_booted_witness :
    ensure_master_image (fun k => k == 1) 1 0 = (some EmiResult.ok, 2, []) :=
  ensure_master_already_booted (fun k => k == 1) 0 0 (by decide) (by decide)

/-- C2 counterexample: under the flapping probe sequence advSeq —
every recovery pass sees "not test-booted", "not master-booted", then
the unknown-state poll re-detects the test image — ensure_master_image
never produces a result at any recursion depth: the line-293
self-invocation repeats forever, so the operation does not terminate
for every sequence of probe outcomes. -/
theorem ensure_master_image_diverges :
    ¬ ∃ (fuel : Nat) (r : EmiResult), (ensure_master_image advSeq fuel 0).1 = some r := by
  rintro ⟨fuel, r, h⟩
  have h0 : (ensure_master_image advSeq fuel 0).1 = none := by
    have := ensure_master_image_diverges_aux fuel 0
    simpa using this
  rw [h0] at h
  exact Option.noConfusion h

/-- C2 (amended): ensure_master_image does terminate — returning
success or raising RecoveryError — for every probe-outcome sequence in
which only finitely many probes answer true (all true answers before
index N): recursion depth N + 1 suffices.  Divergence requires the
unknown-state poll to re-detect the test image on every recursion
round, forever. -/
theorem ensure_master_image_terminates (σ : Nat → Bool) (N k : Nat)
    (ht : ∀ j, σ j = true → j < N) :
    ∃ r, (ensure_master_image σ (N + 1) k).1 = some r := by
  have h := ensure_master_image_total_aux σ N ht N k (by omega)
  match hres : (ensure_master_image σ (N + 1) k).1 with
  | none => exact absurd hres h
  | some r => exact ⟨r, rfl⟩

/-- C2 witness: with every probe answering false, depth 1 suffices. -/
theorem ensure_master_image_terminates_witness :
    ∃ r, (ensure_master_image (fun _ => false) 1 0).1 = some r :=
  ensure_master_image_terminates (fun _ => false) 0 0 (fun j h => by simp at h)
